import Mathlib

/-!
Shallow embedding of the backtesting engine of the Inkosi order-management
repository: the functions technical_column, filter_dataset, checker and
backtest of src/inkosi/backtest/operation/backtest.py, and Asset.sampling of
src/inkosi/backtest/operation/asset.py.

Modelling conventions:
- Python floats are modelled as rationals (the code only adds, subtracts,
  compares and divides prices).
- The tick matrix (numpy 2-D array with columns datetime = 0, bid = 1,
  ask = 2) is a list of rows, each row a list of rationals.
- A Python runtime exception (TypeError, IndexError, NameError /
  UnboundLocalError) is modelled with the Except monad; a function that can
  also return None returns an Option inside Except.
- numpy argmax over a boolean array returns the index of the first True
  entry, and 0 when every entry is False; slicing a 2-D array by rows and
  comparing it with a scalar compares every cell, and argmax of the result
  indexes the row-major flattening.  Both are modelled below.  (argmax of an
  empty array raises in numpy; inside the scan loop the slice is never empty
  because the loop guard ensures at least one row with its cells remains, so
  the total model returning 0 there is unreachable on well-formed input.)
-/

namespace Inkosi

/-- Direction of a trade.  The source type is the string enum Position of
src/inkosi/database/mongodb/schemas.py with members BUY = "buy" and
SELL = "sell"; since the request fields are plain Python values, any other
string can reach the code, modelled by the third constructor. -/
inductive Direction where
  | buy
  | sell
  | other (s : String)
deriving DecidableEq, Repr

/-- Position.has of EnhancedStrEnum (src/inkosi/utils/utils.py): membership
of the value among the enum members. -/
def Direction.isMember : Direction → Bool
  | .buy => true
  | .sell => true
  | .other _ => false

/-- TradeResult of src/inkosi/backtest/operation/models.py. -/
inductive TradeResult where
  | profit
  | loss
  | pending
deriving DecidableEq, Repr

/-- TradeStatus of src/inkosi/backtest/operation/models.py. -/
inductive TradeStatus where
  | closed
  | pending
deriving DecidableEq, Repr

/-- Python runtime exceptions the embedded code can raise. -/
inductive PyErr where
  | typeError
  | indexError
  | nameError
deriving DecidableEq, Repr

/-- A tick matrix: rows of (datetime, bid, ask) cells, columns addressed
positionally (TICKS_DATETIME_INDEX = 0, TICKS_BID_INDEX = 1,
TICKS_ASK_INDEX = 2 in src/inkosi/backtest/operation/models.py). -/
abbrev TickMatrix := List (List ℚ)

/-- Row-major flattening of the row slice dataset[lo : lo + len], as numpy
produces when a 2-D slice is compared with a scalar and fed to argmax. -/
def flatSlice (m : TickMatrix) (lo len : ℕ) : List ℚ :=
  ((m.drop lo).take len).flatten

/-- numpy argmax of a boolean vector: index of the first True, 0 when all
entries are False. -/
def npArgmax (l : List Bool) : ℕ :=
  (l.findIdx? (fun b => b)).getD 0

/-- The while loop of checker (backtest.py lines 128-149).  Each iteration
compares the next delta-row slice cell-wise with the boundary, takes argmax
of the flattened boolean array, advances by delta when argmax is 0 (no True
entry, or a True entry at relative offset 0 - the source cannot tell these
apart) and returns the argmax otherwise.  The loop of the source runs at
most lastIndex - currentIndex + 1 tests when delta is at least 1, so the
fuel argument (instantiated with lastIndex + 1 by checker) never runs out
then; fuel exhaustion models the divergence of the source for delta = 0. -/
def checkerLoop (m : TickMatrix) (cond : ℚ → Bool) (delta lastIndex : ℕ) :
    ℕ → ℕ → Option ℕ
  | 0, _ => none
  | fuel + 1, currentIndex =>
    if currentIndex < lastIndex then
      let result := npArgmax ((flatSlice m currentIndex delta).map cond)
      if result = 0 then
        checkerLoop m cond delta lastIndex fuel (currentIndex + delta)
      else
        some result
    else
      none

/-- checker of backtest.py lines 112-149.  Returns None for a direction that
is not a Position member; otherwise scans forward from startingIndex in
chunks of delta rows.  For BUY the cell condition is
x >= entry_point + take_profit, for SELL it is
x <= entry_point - abs(stop_loss); the condition is applied to EVERY cell of
the sliced rows (datetime, bid and ask alike), because the source compares
the whole 2-D slice with the scalar.  The source's default for delta is
20000; call sites of this embedding pass it explicitly. -/
def checker (m : TickMatrix) (direction : Direction) (startingIndex : ℕ)
    (entryPoint takeProfit stopLoss : ℚ) (delta : ℕ) : Option ℕ :=
  if direction.isMember = false then
    none
  else
    let lastIndex := m.length
    let cond : ℚ → Bool := fun x =>
      match direction with
      | .buy => decide (entryPoint + takeProfit ≤ x)
      | .sell => decide (x ≤ entryPoint - |stopLoss|)
      | .other _ => false
    checkerLoop m cond delta lastIndex (lastIndex + 1) startingIndex

/-- Reading dataset[i, j]; an index outside the matrix raises IndexError. -/
def readCell (m : TickMatrix) (i j : ℕ) : Except PyErr ℚ :=
  match (m.get? i).bind (fun r => r.get? j) with
  | some v => .ok v
  | none => .error .indexError

/-- Python equality test result == 0 where result is int or None:
None == 0 is False, never an error. -/
def pyEqZero : Option ℕ → Bool
  | some k => k == 0
  | none => false

/-- Python comparison a < b on int-or-None operands: defined for two ints,
raises TypeError as soon as either side is None. -/
def pyLt : Option ℕ → Option ℕ → Except PyErr Bool
  | some a, some b => .ok (decide (a < b))
  | _, _ => .error .typeError

/-- The assignment last = dataset[e + off, 0] - dataset[e + off, 0] of
backtest.  With off = None the addition e + None raises TypeError; an
out-of-range row raises IndexError; otherwise the value (always 0) is
computed and then discarded by the source. -/
def computeLast (m : TickMatrix) (e : ℕ) (off : Option ℕ) : Except PyErr ℚ := do
  match off with
  | none => throw .typeError
  | some k =>
    let a ← readCell m (e + k) 0
    let b ← readCell m (e + k) 0
    pure (a - b)

/-- Classification block of backtest for direction == Position.BUY
(backtest.py lines 199-237).  The first if/elif/else only matters for the
exceptions its last-computation can raise (and the PENDING branch computes
nothing), because the second if/else then runs unconditionally and
overwrites trade_result and trade_status; the returned pair is therefore
decided by the comparison result_up < result_down, which raises TypeError
whenever either offset is None. -/
def classifyBuy (m : TickMatrix) (e : ℕ) (up down : Option ℕ) :
    Except PyErr (TradeResult × TradeStatus) := do
  let _ ←
    if pyEqZero down then computeLast m e up
    else if pyEqZero up then computeLast m e down
    else pure 0
  let b ← pyLt up down
  if b then do
    let _ ← computeLast m e up
    pure (TradeResult.profit, TradeStatus.closed)
  else do
    let _ ← computeLast m e down
    pure (TradeResult.loss, TradeStatus.closed)

/-- Classification block of backtest for direction == Position.SELL
(backtest.py lines 238-276): the mirror image of classifyBuy with PROFIT
and LOSS swapped. -/
def classifySell (m : TickMatrix) (e : ℕ) (up down : Option ℕ) :
    Except PyErr (TradeResult × TradeStatus) := do
  let _ ←
    if pyEqZero down then computeLast m e up
    else if pyEqZero up then computeLast m e down
    else pure 0
  let b ← pyLt up down
  if b then do
    let _ ← computeLast m e up
    pure (TradeResult.loss, TradeStatus.closed)
  else do
    let _ ← computeLast m e down
    pure (TradeResult.profit, TradeStatus.closed)

/-- BacktestRecord of src/inkosi/backtest/operation/models.py, restricted to
the fields backtest actually fills: price_close, price_close_index,
time_opening and time_closing are passed the literal Ellipsis placeholder at
the single construction site and are omitted here. -/
structure BacktestRecord where
  direction : Direction
  entry_point : ℚ
  entry_point_index : ℕ
  take_profit : ℚ
  stop_loss : ℚ
  status : TradeStatus
  result : TradeResult
deriving DecidableEq, Repr

/-- BacktestRequest of src/inkosi/backtest/operation/models.py with the
dataset handle already resolved to its tick matrix (get_dataset()). -/
structure BacktestRequest where
  starting_indexes : List ℕ
  direction : List Direction
  take_profits : List ℚ
  stop_losses : List ℚ
  dataset : TickMatrix

/-- The candidate loop of backtest (backtest.py lines 165-298).  The two
Option arguments are the loop-carried Python locals entry_point_price and
(trade_result, trade_status): they survive from one iteration to the next,
and using one before any iteration has assigned it raises
NameError/UnboundLocalError.  For a candidate whose direction is neither BUY
nor SELL the source only logs inside its else branch and then still appends
a record built from those stale locals. -/
def backtestLoop (m : TickMatrix) (n : ℕ) :
    List (ℕ × Direction × ℚ × ℚ) → Option ℚ →
    Option (TradeResult × TradeStatus) → List BacktestRecord →
    Except PyErr (List BacktestRecord)
  | [], _, _, acc => .ok acc
  | (occurence, dir, tp, sl) :: rest, priceState, trsState, acc =>
    if occurence + 1 > n then
      .ok acc
    else
      let e := occurence + 1
      let priceRes : Except PyErr ℚ :=
        match dir with
        | .buy => readCell m e 1
        | .sell => readCell m e 2
        | .other _ =>
          match priceState with
          | some p => .ok p
          | none => .error .nameError
      match priceRes with
      | .error err => .error err
      | .ok price =>
        let up := checker m .buy e price tp sl 20000
        let down := checker m .sell e price tp sl 20000
        let trsRes : Except PyErr (TradeResult × TradeStatus) :=
          match dir with
          | .buy => classifyBuy m e up down
          | .sell => classifySell m e up down
          | .other _ =>
            match trsState with
            | some trs => .ok trs
            | none => .error .nameError
        match trsRes with
        | .error err => .error err
        | .ok (tr, ts) =>
          backtestLoop m n rest (some price) (some (tr, ts))
            (acc ++ [⟨dir, price, e, tp, sl, ts, tr⟩])

/-- backtest of backtest.py lines 152-298.  Returns .ok none when the
direction and starting-index vectors differ in length (the source logs and
returns None), .ok (some records) on completion, and .error e when the loop
raises; zip truncates the four parallel vectors to the shortest, as in
Python. -/
def backtest (request : BacktestRequest) : Except PyErr (Option (List BacktestRecord)) :=
  let dataset := request.dataset
  let n := dataset.length
  if request.direction.length ≠ request.starting_indexes.length then
    .ok none
  else
    (backtestLoop dataset n
      (request.starting_indexes.zip
        (request.direction.zip (request.take_profits.zip request.stop_losses)))
      none none []).map some

/-- Rolling simple moving average of window p with pandas defaults
(min_periods = p): position i holds the mean of the p observations ending at
i once i + 1 >= p, and NaN (modelled as none) during the warm-up.  This is
what pandas_ta sma(close, length = p) computes; the model assumes p >= 1
(pandas rejects length 0). -/
def sma (closes : List ℚ) (p : ℕ) : List (Option ℚ) :=
  (List.range closes.length).map fun i =>
    if p ≤ i + 1 then
      some ((((closes.drop (i + 1 - p)).take p).sum) / (p : ℚ))
    else
      none

/-- Modelled from the spec: the standard weighted moving average of window p
(weights 1..p, most recent observation weighted p), stated only to compare
with what the source computes for the WMA identifier. -/
def wma_spec (closes : List ℚ) (p : ℕ) : List (Option ℚ) :=
  (List.range closes.length).map fun i =>
    if p ≤ i + 1 then
      let w := (closes.drop (i + 1 - p)).take p
      some ((((List.range p).map fun (j : ℕ) => (((j + 1 : ℕ) : ℚ)) * w.getD j 0).sum) /
        ((p : ℚ) * ((p : ℚ) + 1) / 2))
    else
      none

/-- AvailableTechincalIndicators of
src/inkosi/backtest/operation/schemas.py (the source spells it this way). -/
inductive AvailableTechincalIndicators where
  | SMA
  | WMA
  | EMA
deriving DecidableEq, Repr

/-- Indicator branches of technical_column (backtest.py lines 35-67),
applied to the close-price column with the resolved look-back period (the
additional_information dict lookup with its configured default).  The raw
column branch is a direct lookup and is not needed by the claims.  In the
source the SMA case calls data_frame.ta.sma; the WMA case ALSO calls
data_frame.ta.sma (not wma); the EMA case evaluates
additional_information(Elements.PERIOD, ...) - calling the dict as a
function - which raises TypeError while the arguments of ta.sma are being
evaluated. -/
def technical_column (closes : List ℚ)
    (column_type : AvailableTechincalIndicators) (period : ℕ) :
    Except PyErr (List (Option ℚ)) :=
  match column_type with
  | .SMA => .ok (sma closes period)
  | .WMA => .ok (sma closes period)
  | .EMA => .error .typeError

/-- Relation of src/inkosi/backtest/operation/schemas.py. -/
inductive Relation where
  | GREATER
  | GREATER_THAN
  | LESS
  | LESS_THAN
  | EQUAL
deriving DecidableEq, Repr

/-- Filter of src/inkosi/backtest/operation/schemas.py: each comparison
element is a dict carrying the element (column or indicator) name, modelled
by its name string. -/
structure Filter where
  first_element : String
  second_element : String
  relation : Relation
deriving DecidableEq, Repr

/-- filter_dataset of backtest.py lines 70-109.  The running index set
starts as set(data_frame.index), the positional indices of the series.  The
body of the per-rule loop begins with the call
technical_column(data_frame=..., technical_indicator=first_element.get(...)),
but technical_column has no parameter named technical_indicator (its
parameters are data_frame, column_type and additional_information), so for
every rule this first statement raises
TypeError: unexpected keyword argument, before any comparison or
intersection can run; with a non-empty rule list the function therefore
always raises, and only the empty rule list returns the full index set. -/
def filter_dataset (data_frame : List ℚ) (filters : List Filter) :
    Except PyErr (List ℕ) :=
  match filters with
  | [] => .ok (List.range data_frame.length)
  | _ :: _ => .error .typeError

/-- SamplingMethods of src/inkosi/backtest/operation/schemas.py, with a
constructor for values outside the enum (the source's match has a catch-all
case returning None). -/
inductive SamplingMethods where
  | NORMAL_DISTRIBUTION
  | LAPLACE_DISTRIBUTION
  | UNIFORM_DISTRIBUTION
  | other (s : String)
deriving DecidableEq, Repr

/-- Whether the sampling method is one of the three enum members. -/
def SamplingMethods.isKnown : SamplingMethods → Bool
  | .other _ => false
  | _ => true

/-- Asset.sampling of src/inkosi/backtest/operation/asset.py lines 59-160.
prices is the historical column the asset holds for the requested column
(the source defaults it to the one-element array [0] when the column is
missing, so it is nonempty in practice); draws is the matrix of i.i.d.
random draws of shape samples x (steps_forward - 1) that np.random produces
under the chosen distribution, taken here as an input so the function is a
deterministic model of one realization.  The source validates
1 < steps_forward < 255 and then 1 <= samples < 10000, returning None on
failure before touching the data; an unrecognized method also returns None.
Otherwise row i of the returned matrix is the historical prices followed by
the cumulative sums of the last price and the draws of row i, which is what
np.hstack of the repeated history and np.cumsum(hstack(last_prices, draws))
builds and plotting passes through; prices[-1] on an empty history raises
IndexError. -/
def sampling (prices : List ℚ) (draws : List (List ℚ))
    (sampling_method : SamplingMethods) (steps_forward samples : ℤ) :
    Except PyErr (Option (List (List ℚ))) :=
  if ¬ (1 < steps_forward ∧ steps_forward < 255) then
    .ok none
  else if ¬ (1 ≤ samples ∧ samples < 10000) then
    .ok none
  else if sampling_method.isKnown = false then
    .ok none
  else
    match prices.getLast? with
    | none => .error .indexError
    | some lastPrice =>
      .ok (some ((List.range samples.toNat).map fun i =>
        prices ++ ((draws.getD i []).scanl (fun a b => a + b) lastPrice)))

/-- The bid column of a tick matrix (column TICKS_BID_INDEX = 1). -/
def bidColumn (m : TickMatrix) : List ℚ :=
  m.map fun r => r.getD 1 0

/-- The five-row tick matrix of the spec's concrete scenario, with the
symbolic timestamps t0..t4 instantiated to the strictly increasing values
0,1,2,3,4. -/
def scenarioMatrix : TickMatrix :=
  [[0, 100, 101], [1, 102, 103], [2, 99, 100], [3, 105, 106], [4, 98, 99]]

/-- The scan loop never yields some 0: the source treats an argmax of 0 as
"no match in this chunk" and advances, so a value is returned only from the
branch where the argmax is nonzero. -/
theorem checkerLoop_ne_some_zero (m : TickMatrix) (cond : ℚ → Bool)
    (delta lastIndex : ℕ) :
    ∀ fuel currentIndex,
      checkerLoop m cond delta lastIndex fuel currentIndex ≠ some 0 := by
  intro fuel
  induction fuel with
  | zero =>
    intro currentIndex
    simp [checkerLoop]
  | succ f ih =>
    intro currentIndex
    simp only [checkerLoop]
    split
    · split
      · exact ih _
      · rename_i h
        simpa using h
    · simp

/-- checker never returns some 0, whatever the direction, bounds or chunk
size. -/
theorem checker_ne_some_zero (m : TickMatrix) (direction : Direction)
    (startingIndex : ℕ) (entryPoint takeProfit stopLoss : ℚ) (delta : ℕ) :
    checker m direction startingIndex entryPoint takeProfit stopLoss delta ≠
      some 0 := by
  cases direction with
  | buy =>
    exact checkerLoop_ne_some_zero m _ delta m.length (m.length + 1)
      startingIndex
  | sell =>
    exact checkerLoop_ne_some_zero m _ delta m.length (m.length + 1)
      startingIndex
  | other s =>
    simp [checker, Direction.isMember]

/-- Claim C10: whenever checker returns an offset it is at least 1; checker
can never return 0, so the result_down == 0 and result_up == 0 branches of
the classification in backtest are unreachable from checker's actual
output. -/
theorem C10_checker_offset_positive (m : TickMatrix) (direction : Direction)
    (startingIndex : ℕ) (entryPoint takeProfit stopLoss : ℚ) (delta : ℕ)
    (r : ℕ)
    (h : checker m direction startingIndex entryPoint takeProfit stopLoss
      delta = some r) :
    1 ≤ r := by
  rcases Nat.eq_zero_or_pos r with hr | hr
  · subst hr
    exact absurd h
      (checker_ne_some_zero m direction startingIndex entryPoint takeProfit
        stopLoss delta)
  · exact hr

/-- Witness for C10 at a concrete input: checker does return an offset
there, and the theorem bounds it below by 1. -/
theorem C10_checker_offset_positive_witness :
    checker [[0, 0, 0], [0, 0, 9]] .buy 0 5 0 0 1 = some 2 ∧ 1 ≤ 2 :=
  ⟨by with_unfolding_all rfl,
    C10_checker_offset_positive [[0, 0, 0], [0, 0, 9]] .buy 0 5 0 0 1 2
      (by with_unfolding_all rfl)⟩

/-- A 2-row tick matrix of zero cells, used as a minimal failing input. -/
def flatMatrix2 : TickMatrix :=
  [[0, 0, 0], [0, 0, 0]]

/-- A tick matrix on which a BUY candidate at index 0 with take_profit 1 and
stop_loss 1 classifies without raising (both scans return small nonzero
offsets), so that a following candidate reuses the stale loop locals. -/
def staleMatrix : TickMatrix :=
  [[10, 10, 10], [10, 10, 12], [10, 10, 8], [10, 10, 10]]

/-- A concrete comparison rule (both operands the close column). -/
def exampleRule : Filter :=
  ⟨"Close", "Close", .GREATER⟩

/-- Claim C1, evaluated: on the spec's 5-row scenario (timestamps 0..4) with
a BUY candidate at index 0, take_profit 3 and stop_loss 5, backtest does not
emit a PENDING/PENDING record: the SELL-side scan returns None and the
unconditional comparison result_up < result_down raises TypeError, so the
run raises and emits nothing.  Moreover the entry price the code reads for a
BUY is dataset[1, TICKS_BID_INDEX] = 102, not the ask 103 the claim
states. -/
theorem C1_scenario_raises :
    backtest ⟨[0], [.buy], [3], [5], scenarioMatrix⟩ = .error .typeError
    ∧ readCell scenarioMatrix 1 1 = .ok 102
    ∧ (102 : ℚ) ≠ 103 :=
  ⟨by with_unfolding_all rfl, by with_unfolding_all rfl, by norm_num⟩

/-- Claim C2, evaluated: checker does not scan the bid column.  On the
2-row matrix [[0,1,1],[1000,1,1]] with a BUY scan from index 0 for the
boundary 0 + 500, no bid entry ever reaches 500 (second conjunct), yet
checker returns offset 3 - the flat row-major position of the second row's
DATETIME cell - because the source compares every cell of the 2-D slice
with the boundary and takes argmax of the flattened result. -/
theorem C2_checker_matches_datetime_cell :
    checker [[0, 1, 1], [1000, 1, 1]] .buy 0 0 500 0 20000 = some 3
    ∧ (bidColumn [[0, 1, 1], [1000, 1, 1]]).filter
        (fun b => decide (500 ≤ b)) = [] :=
  ⟨by with_unfolding_all rfl, by with_unfolding_all rfl⟩

/-- Claim C3, evaluated: chunking is not semantically transparent.  On the
matrix [[0,0,0],[0,0,9]] with a BUY scan from index 0 for boundary 5 + 0,
chunk size 1 returns offset 2 (relative to the second chunk) while chunk
size 2 - which covers the entire remaining array in one pass - returns
offset 5: the returned offset is relative to the chunk that contains the
match, so the chunk boundary is observable. -/
theorem C3_chunk_size_changes_result :
    checker [[0, 0, 0], [0, 0, 9]] .buy 0 5 0 0 1 = some 2
    ∧ checker [[0, 0, 0], [0, 0, 9]] .buy 0 5 0 0 2 = some 5
    ∧ (some 2 : Option ℕ) ≠ (some 5 : Option ℕ) :=
  ⟨by with_unfolding_all rfl, by with_unfolding_all rfl, by decide⟩

/-- Claim C4, evaluated: classification is not total.  On a 2-row all-zero
matrix with one BUY candidate whose boundaries are never touched, both
scans return None, the classification sets PENDING, and the source then
unconditionally evaluates result_up < result_down, raising TypeError: the
run raises and the candidate gets no TradeRecord at all. -/
theorem C4_both_scans_none_raises :
    backtest ⟨[0], [.buy], [1000], [1000], flatMatrix2⟩ =
      .error .typeError := by
  with_unfolding_all rfl

/-- Claim C5, evaluated: the bound check is off by one.  With a 2-row
dataset and starting index 1, the guard occurence + 1 > n_dataset is false
(2 > 2 fails), so the candidate is not dropped, and the entry-price read
dataset[2, TICKS_BID_INDEX] is out of range and raises IndexError. -/
theorem C5_entry_read_out_of_range :
    flatMatrix2.length = 2
    ∧ backtest ⟨[1], [.buy], [1], [1], flatMatrix2⟩ = .error .indexError :=
  ⟨by with_unfolding_all rfl, by with_unfolding_all rfl⟩

/-- Claim C6, evaluated: filter_dataset raises TypeError for every
non-empty rule list (the call to technical_column passes the nonexistent
keyword argument technical_indicator), so the index set the conjunction
property speaks of never exists once a rule is present; only the empty rule
list returns the full index set. -/
theorem C6_filter_raises_on_any_rule :
    filter_dataset [1, 2, 3] ([exampleRule] ++ []) = .error .typeError
    ∧ filter_dataset [1, 2, 3] [] = .ok [0, 1, 2] :=
  ⟨by with_unfolding_all rfl, by with_unfolding_all rfl⟩

/-- Claim C7, evaluated: for the close series [0, 3] and period 2, the WMA
identifier returns the simple moving average [none, 3/2] (the source's WMA
branch calls ta.sma), while the standard weighted moving average is
[none, 2]; and the EMA identifier raises TypeError (the source calls the
additional_information dict as a function). -/
theorem C7_wma_computes_sma_and_ema_raises :
    technical_column [0, 3] .WMA 2 = .ok [none, some (3 / 2)]
    ∧ wma_spec [0, 3] 2 = [none, some 2]
    ∧ ((3 : ℚ) / 2) ≠ 2
    ∧ technical_column [0, 3] .EMA 2 = .error .typeError :=
  ⟨by with_unfolding_all rfl, by with_unfolding_all rfl, by norm_num,
    by with_unfolding_all rfl⟩

/-- Claim C8, evaluated: an unrecognized direction does not abort the run
and does emit a record.  After a first BUY candidate classifies as
PROFIT/CLOSED, a second candidate with direction "hold" reuses the stale
entry price and stale classification locals: the source logs in its else
branch and still appends a TradeRecord for the invalid candidate, and the
run completes normally with both records. -/
theorem C8_invalid_direction_appends_stale_record :
    backtest ⟨[0, 0], [.buy, .other "hold"], [1, 1], [1, 1], staleMatrix⟩ =
      .ok (some
        [⟨.buy, 10, 1, 1, 1, .closed, .profit⟩,
          ⟨.other "hold", 10, 1, 1, 1, .closed, .profit⟩]) := by
  with_unfolding_all rfl

/-- Claim C9: Asset.sampling soft-fails its validation - for any method,
history and draws, a step count outside 2 <= steps < 255 or a sample count
outside 1 <= samples < 10000 yields None without raising; and every
in-range combination of a recognized method on a nonempty history returns a
trajectory matrix. -/
theorem C9_sampling_soft_fail (prices : List ℚ) (draws : List (List ℚ))
    (method : SamplingMethods) (steps samples : ℤ) :
    ((steps ≤ 1 ∨ 255 ≤ steps ∨ samples ≤ 0 ∨ 10000 ≤ samples) →
      sampling prices draws method steps samples = .ok none)
    ∧ (1 < steps → steps < 255 → 1 ≤ samples → samples < 10000 →
      method.isKnown = true → prices ≠ [] →
      ∃ mat, sampling prices draws method steps samples = .ok (some mat)) := by
  constructor
  · intro h
    by_cases hs : 1 < steps ∧ steps < 255
    · have hsam : ¬ (1 ≤ samples ∧ samples < 10000) := by omega
      simp only [sampling, if_neg (not_not_intro hs), if_pos hsam]
    · simp only [sampling, if_pos hs]
  · intro h1 h2 h3 h4 hm hp
    obtain ⟨lastPrice, hl⟩ := Option.isSome_iff_exists.mp
      (List.getLast?_isSome.mpr hp)
    have hs : ¬¬ (1 < steps ∧ steps < 255) := not_not_intro ⟨h1, h2⟩
    have hsam : ¬¬ (1 ≤ samples ∧ samples < 10000) := not_not_intro ⟨h3, h4⟩
    refine ⟨(List.range samples.toNat).map fun i =>
      prices ++ ((draws.getD i []).scanl (fun a b => a + b) lastPrice), ?_⟩
    simp only [sampling]
    rw [hm, if_neg (by decide : ¬ (true = false)), hl, if_neg hs, if_neg hsam]

/-- Witness for C9 at concrete inputs: the four boundary values of the
claim each yield None, and an in-range request yields a matrix. -/
theorem C9_sampling_soft_fail_witness :
    (sampling [1] [[0, 0]] .NORMAL_DISTRIBUTION 1 5 = .ok none
      ∧ sampling [1] [[0, 0]] .NORMAL_DISTRIBUTION 255 5 = .ok none
      ∧ sampling [1] [[0, 0]] .NORMAL_DISTRIBUTION 3 0 = .ok none
      ∧ sampling [1] [[0, 0]] .NORMAL_DISTRIBUTION 3 10000 = .ok none)
    ∧ ∃ mat, sampling [1] [[0, 0]] .NORMAL_DISTRIBUTION 3 2 = .ok (some mat) :=
  ⟨⟨(C9_sampling_soft_fail [1] [[0, 0]] .NORMAL_DISTRIBUTION 1 5).1
      (Or.inl (by decide)),
    (C9_sampling_soft_fail [1] [[0, 0]] .NORMAL_DISTRIBUTION 255 5).1
      (Or.inr (Or.inl (by decide))),
    (C9_sampling_soft_fail [1] [[0, 0]] .NORMAL_DISTRIBUTION 3 0).1
      (Or.inr (Or.inr (Or.inl (by decide)))),
    (C9_sampling_soft_fail [1] [[0, 0]] .NORMAL_DISTRIBUTION 3 10000).1
      (Or.inr (Or.inr (Or.inr (by decide))))⟩,
    (C9_sampling_soft_fail [1] [[0, 0]] .NORMAL_DISTRIBUTION 3 2).2
      (by decide) (by decide) (by decide) (by decide) rfl (by decide)⟩

end Inkosi
